import Mathlib

/-!
Verification of the electricity-bill calculator (`app.py`).

The program is a pandas/streamlit application.  We give a shallow embedding
of its calculation core:

* `validate_csv_data`   — CSV validation and column identification,
* `calculate_power_tariffs` / `evalTariff` — power-tariff (demand charge)
  evaluation,
* `calculate_vat`       — VAT split,
* `convert_price_model_to_config` — the price-model adapter.

Tables are modelled column-orientedly (as pandas stores them): an
association list of column name to list of cells.  Strings are modelled as
`List Char` so that all operations are kernel-computable; machine floats
are modelled as `ℚ`.  Mutation of the data frame (`df[col] = ...`) is
modelled by explicit state passing: the validator returns the table that
the variable of the caller refers to after the call.
-/

namespace PowerBill

/-! ### Characters and strings (`List Char` model of Python `str`) -/

/-- ASCII lower-casing of one character (Python `str.lower`). -/
def toLowerChar (c : Char) : Char :=
  if 'A' ≤ c ∧ c ≤ 'Z' then Char.ofNat (c.toNat + 32) else c

/-- Python `s.lower()`. -/
def lowerStr (s : List Char) : List Char := s.map toLowerChar

/-- Python `needle in hay` (contiguous substring test). -/
def containsSub (hay needle : List Char) : Bool :=
  match hay with
  | [] => needle.isEmpty
  | _ :: t => needle.isPrefixOf hay || containsSub t needle

/-- Python `s.split(sep)` for a one-character separator. -/
def splitOnChar (sep : Char) : List Char → List (List Char)
  | [] => [[]]
  | c :: rest =>
    let r := splitOnChar sep rest
    if c = sep then [] :: r
    else
      match r with
      | h :: t => (c :: h) :: t
      | [] => [[c]]

/-- Numeric value of a decimal digit character. -/
def digitVal (c : Char) : Option Nat :=
  if '0' ≤ c ∧ c ≤ '9' then some (c.toNat - '0'.toNat) else none

/-- Parse an unsigned decimal natural number (all characters must be digits,
and at least one digit must be present). -/
def parseNatChars (s : List Char) : Option Nat :=
  if s.isEmpty then none
  else s.foldl (fun acc c => do
    let a ← acc
    let d ← digitVal c
    pure (a * 10 + d)) (some 0)

/-- Python `int(s)`: optional leading minus sign, then decimal digits. -/
def parseIntChars (s : List Char) : Option Int :=
  match s with
  | '-' :: rest => (parseNatChars rest).map (fun n => -(n : Int))
  | _ => (parseNatChars s).map (fun n => (n : Int))

/-- Unsigned part of Python `float(s)`: `"12"`, `"12.5"`, `"12."`, `".5"`. -/
def parseUnsignedFloat (s : List Char) : Option ℚ :=
  match splitOnChar '.' s with
  | [ip] => (parseNatChars ip).map (fun n => (n : ℚ))
  | [ip, fp] =>
    if ip.isEmpty && fp.isEmpty then none
    else do
      let n ← if ip.isEmpty then some 0 else parseNatChars ip
      if fp.isEmpty then
        pure (n : ℚ)
      else do
        let f ← parseNatChars fp
        pure ((n : ℚ) + (f : ℚ) / ((10 : ℚ) ^ fp.length))
  | _ => none

/-- Python `float(s)` (decimal subset used by the data at hand). -/
def parseFloatChars (s : List Char) : Option ℚ :=
  match s with
  | '-' :: rest => (parseUnsignedFloat rest).map Neg.neg
  | _ => parseUnsignedFloat s

/-! ### Timestamps -/

/-- A parsed date-time (`pandas.Timestamp` to the precision the program
uses: `.dt.date`, `.dt.month`, `.dt.hour`). -/
structure Timestamp where
  year : Nat
  month : Nat
  day : Nat
  hour : Nat
  minute : Nat
deriving DecidableEq, Repr

/-- A calendar date (`Timestamp.dt.date`). -/
structure DateT where
  year : Nat
  month : Nat
  day : Nat
deriving DecidableEq, Repr

/-- Accessor `.dt.date`: truncation of a timestamp to its calendar date. -/
def Timestamp.date (t : Timestamp) : DateT := ⟨t.year, t.month, t.day⟩

/-- Lexicographic key of a date, for the ascending sort pandas `groupby`
performs on its group keys. -/
def DateT.key (d : DateT) : Nat := d.year * 10000 + d.month * 100 + d.day

/-- Ascending order on dates. -/
def dateLe (a b : DateT) : Prop := a.key ≤ b.key

instance : DecidableRel dateLe := fun a b => Nat.decLe a.key b.key

/-- The `"YYYY-MM-DD"` date part of a timestamp string. -/
def parseDatePart (s : List Char) : Option (Nat × Nat × Nat) :=
  match splitOnChar '-' s with
  | [y, m, d] => do
    let yn ← parseNatChars y
    let mn ← parseNatChars m
    let dn ← parseNatChars d
    if 1 ≤ mn ∧ mn ≤ 12 ∧ 1 ≤ dn ∧ dn ≤ 31 then pure (yn, mn, dn) else none
  | _ => none

/-- The `"HH:MM"` or `"HH:MM:SS"` time part of a timestamp string. -/
def parseTimePart (s : List Char) : Option (Nat × Nat) :=
  match splitOnChar ':' s with
  | [h, m] => do
    let hn ← parseNatChars h
    let mn ← parseNatChars m
    if hn ≤ 23 ∧ mn ≤ 59 then pure (hn, mn) else none
  | [h, m, sec] => do
    let hn ← parseNatChars h
    let mn ← parseNatChars m
    let sn ← parseNatChars sec
    if hn ≤ 23 ∧ mn ≤ 59 ∧ sn ≤ 59 then pure (hn, mn) else none
  | _ => none

/-- Parse `pandas.to_datetime` on one value, restricted to the ISO-like strings
the application documents (`"2024-01-01 00:00:00"`). -/
def parseTimestampChars (s : List Char) : Option Timestamp :=
  match splitOnChar ' ' s with
  | [d] => (parseDatePart d).map (fun x => ⟨x.1, x.2.1, x.2.2, 0, 0⟩)
  | [d, tm] => do
    let x ← parseDatePart d
    let hm ← parseTimePart tm
    pure ⟨x.1, x.2.1, x.2.2, hm.1, hm.2⟩
  | _ => none

/-! ### Cells and tables -/

/-- One cell of a data frame: a string, a float, a missing value (`NaN`)
or an already-parsed datetime. -/
inductive Cell where
  | str (s : List Char)
  | num (q : ℚ)
  | nan
  | dt (t : Timestamp)
deriving DecidableEq, Repr

def Cell.isStrCell : Cell → Bool
  | .str _ => true
  | _ => false

def Cell.isNanCell : Cell → Bool
  | .nan => true
  | _ => false

def Cell.isNegCell : Cell → Bool
  | .num q => q < 0
  | _ => false

/-- Column names, as Python strings. -/
abbrev ColName := List Char

/-- A pandas data frame, column-oriented: ordered association list of
column name to cell list. -/
structure Table where
  cols : List (ColName × List Cell)
deriving DecidableEq, Repr

def Table.colNames (t : Table) : List ColName := t.cols.map Prod.fst

/-- Column access `df[c]` (first column of that name; empty if absent). -/
def Table.getCol (t : Table) (c : ColName) : List Cell :=
  ((t.cols.find? (fun p => p.1 == c)).map Prod.snd).getD []

/-- Assignment `df[c] = v`: replace the cells of column `c`. -/
def Table.setCol (t : Table) (c : ColName) (v : List Cell) : Table :=
  ⟨t.cols.map (fun p => if p.1 == c then (p.1, v) else p)⟩

/-- Number of rows (length of the first column). -/
def Table.nRows (t : Table) : Nat :=
  match t.cols with
  | [] => 0
  | p :: _ => p.2.length

/-- Emptiness `df.empty`: an axis of length zero. -/
def Table.isEmptyTable (t : Table) : Bool := t.cols.isEmpty || t.nRows == 0

/-! ### `validate_csv_data` -/

/-- The validation error taxonomy (the program appends formatted message
strings; we record the kind together with the offending column). -/
inductive VErr where
  | emptyInput
  | insufficientColumns
  | unparsableTimestamp (col : ColName)
  | couldNotParseUsage (col : ColName)
  | nonNumericUsage (col : ColName)
  | negativeUsage (col : ColName)
deriving DecidableEq, Repr

def datetimeTerms : List (List Char) :=
  ["datetime".data, "date".data, "time".data, "timestamp".data]

def usageTerms : List (List Char) :=
  ["kwh".data, "usage".data, "consumption".data, "power".data]

/-- Test `any(term in col_lower for term in terms)` on the lower-cased name. -/
def matchesAny (name : ColName) (terms : List (List Char)) : Bool :=
  terms.any (fun t => containsSub (lowerStr name) t)

/-- The column-identification loop of `validate_csv_data` (lines 36-41):
for each column, test the datetime substrings first and `elif` the usage
substrings; a later match overwrites an earlier one. -/
def identifyCols (names : List ColName) : Option ColName × Option ColName :=
  names.foldl
    (fun acc col =>
      if matchesAny col datetimeTerms then (some col, acc.2)
      else if matchesAny col usageTerms then (acc.1, some col)
      else acc)
    (none, none)

/-- Identified columns with the positional defaults (lines 43-49): first
column if no datetime match, second column (first if only one) if no
usage match. -/
def resolvedCols (names : List ColName) : ColName × ColName :=
  let ids := identifyCols names
  (ids.1.getD (names.headD []),
   ids.2.getD (if names.length > 1 then names.getD 1 [] else names.headD []))

/-- Parse `pd.to_datetime` on one cell. -/
def parseCellTimestamp (c : Cell) : Option Timestamp :=
  match c with
  | .dt t => some t
  | .str s => parseTimestampChars s
  | _ => none

/-- Coercion `pd.to_datetime(df[datetime_col])`: all values must parse, the result
column holds parsed datetimes; `none` models the raised exception. -/
def coerceDatetimeCol (col : List Cell) : Option (List Cell) :=
  (col.mapM parseCellTimestamp).map (fun l => l.map Cell.dt)

/-- Coercion `df[usage_col].str.replace(",", ".", regex=False).astype(float)`.
The `.str` accessor turns non-string elements into `NaN`; `astype(float)`
raises (here: `none`) on a string that does not parse as a float. -/
def strReplaceAstypeFloat (col : List Cell) : Option (List Cell) :=
  col.mapM (fun c =>
    match c with
    | .str s =>
      (parseFloatChars (s.map (fun ch => if ch = ',' then '.' else ch))).map Cell.num
    | _ => some Cell.nan)

/-- Coercion `pd.to_numeric(column, errors="coerce")` on one cell: anything that is
not numeric becomes `NaN`. -/
def toNumericCoerce (c : Cell) : Cell :=
  match c with
  | .num q => .num q
  | .str s => ((parseFloatChars s).map Cell.num).getD .nan
  | .nan => .nan
  | .dt _ => .nan

/-- The usage-coercion block (lines 58-64).  `.str` raises
`AttributeError` (silently passed) when the column holds no strings;
`none` models an escaping exception (the outer `except`), in which case
the column is left unchanged. -/
def usageStep (col : List Cell) : Option (List Cell) :=
  if col.any Cell.isStrCell then
    (strReplaceAstypeFloat col).map (fun c2 => c2.map toNumericCoerce)
  else
    some (col.map toNumericCoerce)

/-- The errors the usage checks (lines 58-70) produce for a given raw
usage column. -/
def usageErrorsOf (ucol : List Cell) (usage_col : ColName) : List VErr :=
  match usageStep ucol with
  | none => [.couldNotParseUsage usage_col]
  | some newCol =>
    (if newCol.any Cell.isNanCell then [VErr.nonNumericUsage usage_col] else []) ++
    (if newCol.any Cell.isNegCell then [VErr.negativeUsage usage_col] else [])

/-- Result of `validate_csv_data`: the accumulated errors, the identified
columns (absent on the two early returns, which return the error list
alone), and — state passing for the in-place column assignments — the
table the `df` of the caller holds after the call. -/
structure ValidationOutcome where
  errors : List VErr
  datetime_col : Option ColName
  usage_col : Option ColName
  table : Table
deriving DecidableEq, Repr

/-- The validator `validate_csv_data(df)` (lines 20-72). -/
def validate_csv_data (df : Table) : ValidationOutcome :=
  if df.isEmptyTable then ⟨[.emptyInput], none, none, df⟩
  else if df.colNames.length < 2 then ⟨[.insufficientColumns], none, none, df⟩
  else
    let cs := resolvedCols df.colNames
    let datetime_col := cs.1
    let usage_col := cs.2
    let step1 :=
      match coerceDatetimeCol (df.getCol datetime_col) with
      | some newCol => (([] : List VErr), df.setCol datetime_col newCol)
      | none => ([VErr.unparsableTimestamp datetime_col], df)
    let df1 := step1.2
    let step2 :=
      match usageStep (df1.getCol usage_col) with
      | none => (df1.getCol usage_col, df1)
      | some newCol => (newCol, df1.setCol usage_col newCol)
    ⟨step1.1 ++ usageErrorsOf (df1.getCol usage_col) usage_col,
     some datetime_col, some usage_col, step2.2⟩

/-! ### `calculate_power_tariffs` -/

/-- One row of the validated series, projected onto the two columns the
evaluator reads. -/
structure Row where
  ts : Timestamp
  usage : ℚ
deriving DecidableEq, Repr

/-- A tariff rule (the `tariff` dict).  `top_n` is an `Int` because the
price-model adapter produces it with Python `int()`. -/
structure Tariff where
  name : List Char
  enabled : Bool
  top_n : Int
  rate : ℚ
  months : List Int
  hours : List Int
deriving DecidableEq, Repr

/-- One entry of the `tariff_costs` list. -/
structure TariffCost where
  name : List Char
  cost : ℚ
  mean_usage : ℚ
  top_n : Int
  rate : ℚ
  enabled : Bool
deriving DecidableEq, Repr

/-- Month and hour filtering (lines 96-102): each filter is applied only
when its restriction list is non-empty (Python truthiness), and the two
are intersective. -/
def filteredRows (df : List Row) (t : Tariff) : List Row :=
  let df1 :=
    if t.months.isEmpty then df
    else df.filter (fun r => t.months.contains (r.ts.month : Int))
  if t.hours.isEmpty then df1
  else df1.filter (fun r => t.hours.contains (r.ts.hour : Int))

/-- The distinct dates of a series, in order of first appearance. -/
def datesOf (df : List Row) : List DateT := (df.map (fun r => r.ts.date)).dedup

/-- Grouping `groupby(dt.date)[usage].max()` (line 116): one `(date, peak)` entry
per distinct date, dates sorted ascending (pandas sorts group keys), the
peak being the maximum usage among the rows of that date. -/
def dailyPeaks (df : List Row) : List (DateT × ℚ) :=
  (List.insertionSort dateLe (datesOf df)).filterMap (fun d =>
    match (df.filter (fun r => r.ts.date == d)).map Row.usage with
    | [] => none
    | u :: us => some (d, us.foldl max u))

/-- Descending order on peak values, for `nlargest`. -/
def peakDesc (a b : DateT × ℚ) : Prop := b.2 ≤ a.2

instance : DecidableRel peakDesc :=
  fun a b => inferInstanceAs (Decidable (b.2 ≤ a.2))

/-- Selection `daily_peaks.nlargest(top_n, "peak_usage")` (line 120): stable
sort by peak value descending (`keep="first"` resolves ties by original order,
which a stable sort reproduces), take the first `top_n` rows (all of them
if fewer; none for a non-positive `top_n`). -/
def topPeaks (peaks : List (DateT × ℚ)) (n : Int) : List (DateT × ℚ) :=
  (List.insertionSort peakDesc peaks).take n.toNat

/-- The loop body of `calculate_power_tariffs` for one tariff
(lines 80-139): the entry appended to `tariff_costs`. -/
def evalTariff (df : List Row) (t : Tariff) : TariffCost :=
  if !t.enabled then ⟨t.name, 0, 0, t.top_n, t.rate, false⟩
  else
    let f := filteredRows df t
    if f.isEmpty then ⟨t.name, 0, 0, t.top_n, t.rate, true⟩
    else
      let tp := topPeaks (dailyPeaks f) t.top_n
      if tp.isEmpty then ⟨t.name, 0, 0, t.top_n, t.rate, true⟩
      else
        let mean_peak_usage := (tp.map Prod.snd).sum / (tp.length : ℚ)
        ⟨t.name, mean_peak_usage * t.rate, mean_peak_usage, t.top_n, t.rate, true⟩

/-- One entry of `peak_hours_info` (lines 149-155). -/
structure PeakInfo where
  datetime : Option Timestamp
  usage : ℚ
  tariff_name : List Char
  rate : ℚ
  mean_usage : ℚ
deriving DecidableEq, Repr

/-- Peak-timestamp recovery (lines 144-147): the first row of the filtered
series whose date equals the date of the peak and whose usage equals the
peak value.  `none` models the `IndexError` that `.iloc[0]` would raise on an
empty selection. -/
def recoverPeakRow (f : List Row) (p : DateT × ℚ) : Option Timestamp :=
  ((f.filter (fun r => r.ts.date == p.1 && r.usage == p.2)).map Row.ts).head?

/-- The evaluator `calculate_power_tariffs(df, ..., tariffs)` (lines 74-157): total
tariff cost, the flattened peak-hour list, and the per-tariff costs. -/
def calculate_power_tariffs (df : List Row) (tariffs : List Tariff) :
    ℚ × List PeakInfo × List TariffCost :=
  tariffs.foldl
    (fun acc t =>
      let tc := evalTariff df t
      let f := filteredRows df t
      let infos :=
        if t.enabled && !f.isEmpty then
          acc.2.1 ++ (topPeaks (dailyPeaks f) t.top_n).map (fun p =>
            (⟨recoverPeakRow f p, p.2, t.name, t.rate, tc.mean_usage⟩ : PeakInfo))
        else acc.2.1
      (acc.1 + tc.cost, infos, acc.2.2 ++ [tc]))
    (0, [], [])

/-! ### `calculate_vat` -/

/-- The split `calculate_vat(amount, vat_rate, prices_include_vat)` (lines 159-171):
returns `(net_amount, vat_amount)`. -/
def calculate_vat (amount vat_rate : ℚ) (prices_include_vat : Bool) : ℚ × ℚ :=
  if prices_include_vat then
    let vat_multiplier := 1 + vat_rate / 100
    let net_amount := amount / vat_multiplier
    (net_amount, amount - net_amount)
  else
    (amount, amount * (vat_rate / 100))

/-! ### `convert_price_model_to_config` -/

/-- A JSON scalar as it can appear in a price-model file. -/
inductive JVal where
  | jnum (q : ℚ)
  | jstr (s : List Char)
  | jbool (b : Bool)
deriving DecidableEq, Repr

/-- Python `float(x)` on a JSON scalar. -/
def floatOfJVal : JVal → Option ℚ
  | .jnum q => some q
  | .jstr s => parseFloatChars s
  | .jbool b => some (if b then 1 else 0)

/-- Python `int(x)` on a JSON scalar (truncation toward zero on floats). -/
def intOfJVal : JVal → Option Int
  | .jnum q => some (if 0 ≤ q then ⌊q⌋ else ⌈q⌉)
  | .jstr s => parseIntChars s
  | .jbool b => some (if b then 1 else 0)

/-- One entry of `power_tariffs` in a price-model JSON document; `none`
fields are absent keys. -/
structure PTariffJson where
  name : Option (List Char)
  number_of_top_peaks_to_average : Option JVal
  fee_per_kw : Option JVal
  months : Option (List Int)
  start_time : Option (List Char)
  end_time : Option (List Char)
deriving DecidableEq, Repr

/-- A price-model JSON document (the fields the adapter reads). -/
structure ModelData where
  fixed_fee_per_month : Option JVal
  usage_fee_per_kwh : Option JVal
  tax_rate : Option JVal
  prices_include_tax : Option Bool
  currency : Option (List Char)
  power_tariffs : Option (List PTariffJson)
deriving DecidableEq, Repr

/-- The internal configuration produced by the adapter. -/
structure Config where
  fixed_cost : ℚ
  usage_rate : ℚ
  vat_rate : ℚ
  prices_include_vat : Bool
  currency : List Char
  tariffs : List Tariff
deriving DecidableEq, Repr

/-- A failed conversion, recording the field whose conversion raised. -/
inductive ConvErr where
  | badField (field : List Char)
deriving DecidableEq, Repr

/-- Lift an optional conversion result into the error monad of the adapter,
naming the offending field. -/
def ofOpt {α : Type} (o : Option α) (field : List Char) : Except ConvErr α :=
  match o with
  | some a => .ok a
  | none => .error (.badField field)

/-- Helper `time_to_hour(time_str)` (lines 217-218): the Python
`int(time_str.split(":")[0])`. -/
def time_to_hour (s : List Char) : Option Int :=
  parseIntChars ((splitOnChar ':' s).headD [])

/-- Python `range(a, b)` over integers. -/
def intRange (a b : Int) : List Int :=
  (List.range (b - a).toNat).map (fun i => a + i)

/-- The hour-list construction of the adapter (lines 240-250): both time
fields present — only their hour components are used; a window crossing
midnight wraps; either field absent — no hour restriction.  A time string
on which `int()` raises escapes to the `except` handler of the adapter
(`Except.error`, recording which field raised). -/
def tariffHoursOfTimes (st et : Option (List Char)) : Except ConvErr (List Int) :=
  match st, et with
  | some s, some e =>
    match time_to_hour s, time_to_hour e with
    | none, _ => .error (.badField "start_time".data)
    | some _, none => .error (.badField "end_time".data)
    | some start_hour, some end_hour =>
      if start_hour ≤ end_hour then .ok (intRange start_hour (end_hour + 1))
      else .ok (intRange start_hour 24 ++ intRange 0 (end_hour + 1))
  | _, _ => .ok []

/-- Conversion of one `power_tariffs` entry (lines 230-252). -/
def convertTariff (t : PTariffJson) : Except ConvErr Tariff := do
  let top_n ← ofOpt (intOfJVal (t.number_of_top_peaks_to_average.getD (.jnum 3)))
    "number_of_top_peaks_to_average".data
  let rate ← ofOpt (floatOfJVal (t.fee_per_kw.getD (.jnum 50)))
    "fee_per_kw".data
  let hours ← tariffHoursOfTimes t.start_time t.end_time
  pure ⟨t.name.getD "Unnamed Tariff".data, true, top_n, rate, t.months.getD [], hours⟩

/-- The adapter `convert_price_model_to_config(model_data)` (lines 213-258).  The
Python surfaces the caught exception via `st.error` and returns `None`;
we model that path as `Except.error` carrying the offending field. -/
def convert_price_model_to_config (m : ModelData) : Except ConvErr Config := do
  let fixed_cost ← ofOpt (floatOfJVal (m.fixed_fee_per_month.getD (.jnum 100)))
    "fixed_fee_per_month".data
  let usage_rate ← ofOpt (floatOfJVal (m.usage_fee_per_kwh.getD (.jnum 1.2)))
    "usage_fee_per_kwh".data
  let tax ← ofOpt (floatOfJVal (m.tax_rate.getD (.jnum 0.25))) "tax_rate".data
  let tariffs ← (m.power_tariffs.getD []).mapM convertTariff
  pure ⟨fixed_cost, usage_rate, tax * 100, m.prices_include_tax.getD false,
    m.currency.getD "SEK".data, tariffs⟩

/-- The guard at the call site (lines 405-412): `model_config =
convert_price_model_to_config(...)`, and the session configuration is
replaced only `if model_config:`; on a failed conversion the previous
configuration stays. -/
def applyPriceModel (state : Config) (m : ModelData) : Config :=
  match convert_price_model_to_config m with
  | .ok c => c
  | .error _ => state

/-! ### Spec-side definitions used to state refinement claims -/

/-- The rightmost column name satisfying `p`: the identification loop
overwrites an earlier match with a later one, so the last match wins. -/
def findLastMatch (p : ColName → Bool) : List ColName → Option ColName
  | [] => none
  | x :: xs => (findLastMatch p xs).or (if p x then some x else none)

/-- Modelled from the wording of claim C7: the two role scans are
independent — the usage scan considers every column name, whether or not
that name matched a timestamp substring — with the same positional
defaults as the code. -/
def resolvedColsIndependent (names : List ColName) : ColName × ColName :=
  ((findLastMatch (fun c => matchesAny c datetimeTerms) names).getD (names.headD []),
   (findLastMatch (fun c => matchesAny c usageTerms) names).getD
     (if names.length > 1 then names.getD 1 [] else names.headD []))

deriving instance DecidableEq for Except

/-! ### Helper lemmas -/

/-- The left fold of `max` over a list is an element of the start value
consed onto the list (the maximum of a group is attained). -/
theorem foldl_max_mem (l : List ℚ) (a : ℚ) : l.foldl max a ∈ a :: l := by
  induction l generalizing a with
  | nil => simp
  | cons x xs ih =>
    simp only [List.foldl]
    rw [List.mem_cons]
    rcases max_choice a x with h1 | h1 <;> rw [h1]
    · rcases List.mem_cons.mp (ih a) with h | h
      · exact Or.inl h
      · exact Or.inr (List.mem_cons_of_mem x h)
    · exact Or.inr (ih x)

/-- Filtering only removes rows. -/
theorem filteredRows_subset (df : List Row) (t : Tariff) :
    filteredRows df t ⊆ df := by
  unfold filteredRows
  by_cases hm : t.months.isEmpty <;> by_cases hh : t.hours.isEmpty <;>
    simp [hm, hh]

/-- Every daily peak is attained: some row of the series has that date and
that usage value. -/
theorem dailyPeaks_attained {f : List Row} {p : DateT × ℚ}
    (hp : p ∈ dailyPeaks f) : ∃ r ∈ f, r.ts.date = p.1 ∧ r.usage = p.2 := by
  unfold dailyPeaks at hp
  rcases List.mem_filterMap.mp hp with ⟨d, _, hmatch⟩
  rcases hg : (f.filter (fun r => r.ts.date == d)).map Row.usage with _ | ⟨u, us⟩
  · rw [hg] at hmatch; exact absurd hmatch (by simp)
  · rw [hg] at hmatch
    simp only [Option.some.injEq] at hmatch
    have hmem : us.foldl max u ∈ u :: us := foldl_max_mem us u
    rw [← hg] at hmem
    rcases List.mem_map.mp hmem with ⟨r, hr, hru⟩
    rcases List.mem_filter.mp hr with ⟨hrf, hrd⟩
    refine ⟨r, hrf, ?_, ?_⟩
    · rw [← hmatch]; exact beq_iff_eq.mp hrd
    · rw [← hmatch]; exact hru

/-- Every selected top peak is a daily peak of the filtered series. -/
theorem topPeaks_subset_dailyPeaks {peaks : List (DateT × ℚ)} {n : Int}
    {p : DateT × ℚ} (hp : p ∈ topPeaks peaks n) : p ∈ peaks := by
  unfold topPeaks at hp
  exact (List.perm_insertionSort peakDesc peaks).mem_iff.mp
    (List.take_subset _ _ hp)

/-- Daily peak values are nonnegative when all usages are. -/
theorem dailyPeaks_nonneg {df : List Row} {t : Tariff}
    (husage : ∀ r ∈ df, 0 ≤ r.usage) {p : DateT × ℚ}
    (hp : p ∈ dailyPeaks (filteredRows df t)) : 0 ≤ p.2 := by
  rcases dailyPeaks_attained hp with ⟨r, hr, _, hru⟩
  rw [← hru]
  exact husage r (filteredRows_subset df t hr)

/-! ### Claim C1 -/

/-- C1: tariff evaluation is total (it is a Lean function) and degrades to
zero rather than failing: a disabled rule returns a zero-charge,
zero-mean result still carrying the name, rate and `top_n` of the rule; a rule
whose month/hour filters leave no rows does the same (with
`enabled = true`); and with data present the selection has
`min top_n (#distinct dates)` entries — fewer than `top_n` when fewer
distinct dates exist, never padded — and the mean is taken over exactly
those selected entries. -/
theorem tariff_eval_degrades_to_zero (df : List Row) (t : Tariff) :
    (t.enabled = false →
      evalTariff df t = ⟨t.name, 0, 0, t.top_n, t.rate, false⟩) ∧
    (t.enabled = true → filteredRows df t = [] →
      evalTariff df t = ⟨t.name, 0, 0, t.top_n, t.rate, true⟩) ∧
    (t.enabled = true → filteredRows df t ≠ [] →
      (evalTariff df t).name = t.name ∧
      (evalTariff df t).rate = t.rate ∧
      (evalTariff df t).top_n = t.top_n ∧
      (topPeaks (dailyPeaks (filteredRows df t)) t.top_n).length
        = min t.top_n.toNat (dailyPeaks (filteredRows df t)).length ∧
      (evalTariff df t).mean_usage
        = ((topPeaks (dailyPeaks (filteredRows df t)) t.top_n).map Prod.snd).sum
          / ((topPeaks (dailyPeaks (filteredRows df t)) t.top_n).length : ℚ)) := by
  refine ⟨fun h => ?_, fun h hf => ?_, fun h hf => ?_⟩
  · simp [evalTariff, h]
  · simp [evalTariff, h, hf]
  · have hlen : (topPeaks (dailyPeaks (filteredRows df t)) t.top_n).length
        = min t.top_n.toNat (dailyPeaks (filteredRows df t)).length := by
      simp [topPeaks, List.length_take, List.length_insertionSort]
    by_cases htp : (topPeaks (dailyPeaks (filteredRows df t)) t.top_n) = []
    · have h0 : (0 : Nat) = min t.top_n.toNat (dailyPeaks (filteredRows df t)).length := by
        have h1 := hlen
        rw [htp] at h1
        simpa using h1
      simp [evalTariff, h, hf, htp, ← h0]
    · simp [evalTariff, h, hf, htp, hlen]

/-- C1 witness: a two-day series; a disabled rule, an enabled rule whose
month filter matches nothing, and an enabled rule with `top_n = 3` but
only two distinct dates. -/
theorem tariff_eval_degrades_to_zero_witness :
    evalTariff [⟨⟨2024, 1, 1, 10, 0⟩, 1⟩, ⟨⟨2024, 1, 2, 10, 0⟩, 2⟩]
        ⟨"T1".data, false, 3, 10, [], []⟩
      = ⟨"T1".data, 0, 0, 3, 10, false⟩ ∧
    evalTariff [⟨⟨2024, 1, 1, 10, 0⟩, 1⟩, ⟨⟨2024, 1, 2, 10, 0⟩, 2⟩]
        ⟨"T2".data, true, 3, 10, [2], []⟩
      = ⟨"T2".data, 0, 0, 3, 10, true⟩ ∧
    (topPeaks (dailyPeaks (filteredRows
        [⟨⟨2024, 1, 1, 10, 0⟩, 1⟩, ⟨⟨2024, 1, 2, 10, 0⟩, 2⟩]
        ⟨"T3".data, true, 3, 10, [], []⟩)) 3).length
      = min (Int.toNat 3) (dailyPeaks (filteredRows
        [⟨⟨2024, 1, 1, 10, 0⟩, 1⟩, ⟨⟨2024, 1, 2, 10, 0⟩, 2⟩]
        ⟨"T3".data, true, 3, 10, [], []⟩)).length :=
  ⟨(tariff_eval_degrades_to_zero _ _).1 rfl,
   (tariff_eval_degrades_to_zero _ _).2.1 rfl (by decide),
   ((tariff_eval_degrades_to_zero
      [⟨⟨2024, 1, 1, 10, 0⟩, 1⟩, ⟨⟨2024, 1, 2, 10, 0⟩, 2⟩]
      ⟨"T3".data, true, 3, 10, [], []⟩).2.2 rfl (by decide)).2.2.2.1⟩

/-! ### Claim C2 -/

/-- C2: with nonnegative usage (the data model admits only nonnegative
usage values) the sum of the selected top-`n` daily peak values is
monotonically non-decreasing in `n`. -/
theorem sum_top_peaks_monotone (df : List Row) (t : Tariff) (n m : Int)
    (husage : ∀ r ∈ df, 0 ≤ r.usage)
    (hne : filteredRows df t ≠ [])
    (hnm : n ≤ m) :
    ((topPeaks (dailyPeaks (filteredRows df t)) n).map Prod.snd).sum
      ≤ ((topPeaks (dailyPeaks (filteredRows df t)) m).map Prod.snd).sum := by
  have hmono : n.toNat ≤ m.toNat := Int.toNat_le_toNat hnm
  set s := List.insertionSort peakDesc (dailyPeaks (filteredRows df t)) with hs
  have hsplit : s.take m.toNat
      = s.take n.toNat ++ (s.drop n.toNat).take (m.toNat - n.toNat) := by
    rw [← List.take_add, Nat.add_sub_cancel' hmono]
  have : topPeaks (dailyPeaks (filteredRows df t)) m
      = topPeaks (dailyPeaks (filteredRows df t)) n
        ++ (s.drop n.toNat).take (m.toNat - n.toNat) := by
    simp only [topPeaks, ← hs]
    exact hsplit
  rw [this, List.map_append, List.sum_append, le_add_iff_nonneg_right]
  refine List.sum_nonneg ?_
  intro x hx
  rcases List.mem_map.mp hx with ⟨p, hp, hpx⟩
  have hps : p ∈ s := List.drop_subset _ _ (List.take_subset _ _ hp)
  have hpd : p ∈ dailyPeaks (filteredRows df t) :=
    (List.perm_insertionSort peakDesc _).mem_iff.mp hps
  rw [← hpx]
  exact dailyPeaks_nonneg husage hpd

/-- C2 witness: two distinct dates with usages 1 and 2; growing the
selection from the top-1 peak to the top-2 peaks. -/
theorem sum_top_peaks_monotone_witness :
    ((topPeaks (dailyPeaks (filteredRows
        [⟨⟨2024, 1, 1, 10, 0⟩, 1⟩, ⟨⟨2024, 1, 2, 10, 0⟩, 2⟩]
        ⟨"T".data, true, 1, 10, [], []⟩)) 1).map Prod.snd).sum
      ≤ ((topPeaks (dailyPeaks (filteredRows
        [⟨⟨2024, 1, 1, 10, 0⟩, 1⟩, ⟨⟨2024, 1, 2, 10, 0⟩, 2⟩]
        ⟨"T".data, true, 1, 10, [], []⟩)) 2).map Prod.snd).sum :=
  sum_top_peaks_monotone _ _ 1 2 (by decide) (by decide) (by decide)

/-! ### Claim C3 -/

/-- C3: the VAT split is additive across components, in both the
VAT-inclusive and the VAT-exclusive mode: summing the per-component
`(net, vat)` splits of `fixed_cost`, `usage_cost` and the tariff total
gives exactly the split of the summed subtotal (the split is linear in
the amount). -/
theorem vat_component_additivity
    (fixed_cost usage_cost tariff_total vat_rate : ℚ)
    (prices_include_vat : Bool) :
    (calculate_vat fixed_cost vat_rate prices_include_vat).1
        + (calculate_vat usage_cost vat_rate prices_include_vat).1
        + (calculate_vat tariff_total vat_rate prices_include_vat).1
      = (calculate_vat (fixed_cost + usage_cost + tariff_total)
          vat_rate prices_include_vat).1 ∧
    (calculate_vat fixed_cost vat_rate prices_include_vat).2
        + (calculate_vat usage_cost vat_rate prices_include_vat).2
        + (calculate_vat tariff_total vat_rate prices_include_vat).2
      = (calculate_vat (fixed_cost + usage_cost + tariff_total)
          vat_rate prices_include_vat).2 := by
  cases prices_include_vat <;> refine ⟨?_, ?_⟩ <;> simp [calculate_vat] <;> ring

/-! ### Claim C4 -/

/-- C4: VAT round-trip in the VAT-inclusive mode: the net and VAT parts
sum back exactly to the original amount, the net part being
`amount / (1 + vat_rate/100)` and the VAT part the remainder. -/
theorem vat_roundtrip_inclusive (amount vat_rate : ℚ) :
    (calculate_vat amount vat_rate true).1
        + (calculate_vat amount vat_rate true).2 = amount ∧
    (calculate_vat amount vat_rate true).1 = amount / (1 + vat_rate / 100) ∧
    (calculate_vat amount vat_rate true).2
      = amount - amount / (1 + vat_rate / 100) := by
  simp [calculate_vat]

/-! ### Claim C10 -/

/-- C10: peak-timestamp recovery is total: every selected daily peak of an
enabled tariff with non-empty filtered data is attained by at least one
row of the filtered series (same calendar date, equal usage), so taking
the first matching row (`.iloc[0]`) never fails. -/
theorem peak_recovery_total (df : List Row) (t : Tariff)
    (hen : t.enabled = true) (hne : filteredRows df t ≠ []) :
    ∀ p ∈ topPeaks (dailyPeaks (filteredRows df t)) t.top_n,
      (∃ r ∈ filteredRows df t, r.ts.date = p.1 ∧ r.usage = p.2) ∧
      (recoverPeakRow (filteredRows df t) p).isSome = true := by
  intro p hp
  have hd : p ∈ dailyPeaks (filteredRows df t) := topPeaks_subset_dailyPeaks hp
  rcases dailyPeaks_attained hd with ⟨r, hr, hrd, hru⟩
  refine ⟨⟨r, hr, hrd, hru⟩, ?_⟩
  rw [recoverPeakRow, List.head?_isSome]
  have hrf : r ∈ (filteredRows df t).filter
      (fun r => r.ts.date == p.1 && r.usage == p.2) := by
    rw [List.mem_filter]
    exact ⟨hr, by simp [hrd, hru]⟩
  exact List.ne_nil_of_mem (List.mem_map_of_mem Row.ts hrf)

/-- C10 witness: the top peak `(2024-01-02, 2)` of the two-day series is
recovered from a concrete matching row. -/
theorem peak_recovery_total_witness :
    (∃ r ∈ filteredRows [⟨⟨2024, 1, 1, 10, 0⟩, 1⟩, ⟨⟨2024, 1, 2, 10, 0⟩, 2⟩]
        ⟨"T".data, true, 1, 10, [], []⟩,
      r.ts.date = DateT.mk 2024 1 2 ∧ r.usage = 2) ∧
    (recoverPeakRow (filteredRows [⟨⟨2024, 1, 1, 10, 0⟩, 1⟩, ⟨⟨2024, 1, 2, 10, 0⟩, 2⟩]
        ⟨"T".data, true, 1, 10, [], []⟩) (⟨2024, 1, 2⟩, 2)).isSome = true :=
  peak_recovery_total _ _ rfl (by decide) (⟨2024, 1, 2⟩, 2) (by decide)

/-! ### Claim C5 -/

/-- C5 counterexample: the validator does have a side effect on its
input.  On a well-formed two-column table the table the caller holds
after the call (`validate_csv_data` assigns `df[col] = ...` in place) is
not the original: its timestamp cell has been coerced to a datetime and
its usage cell to a float. -/
theorem validator_mutates_input :
    (validate_csv_data ⟨[("date".data, [Cell.str "2024-01-02 03:00".data]),
        ("kwh".data, [Cell.str "2".data])]⟩).table
      ≠ ⟨[("date".data, [Cell.str "2024-01-02 03:00".data]),
        ("kwh".data, [Cell.str "2".data])]⟩ := by decide

/-- C5 (amended): the validator coerces the timestamp and usage columns
of the input table in place — after the call the table of the caller holds
the coerced columns, and only the error list and the identified column
names are returned, not a separate normalized copy. -/
theorem validator_coerces_in_place (df : Table) (newd newu : List Cell)
    (h1 : df.isEmptyTable = false)
    (h2 : ¬ df.colNames.length < 2)
    (hd : coerceDatetimeCol (df.getCol (resolvedCols df.colNames).1) = some newd)
    (hu : usageStep ((df.setCol (resolvedCols df.colNames).1 newd).getCol
        (resolvedCols df.colNames).2) = some newu) :
    (validate_csv_data df).table
      = (df.setCol (resolvedCols df.colNames).1 newd).setCol
          (resolvedCols df.colNames).2 newu ∧
    (validate_csv_data df).datetime_col = some (resolvedCols df.colNames).1 ∧
    (validate_csv_data df).usage_col = some (resolvedCols df.colNames).2 := by
  simp [validate_csv_data, h1, h2, hd, hu]

/-- C5 witness: the amended statement at the concrete two-column table,
with the concretely coerced columns. -/
theorem validator_coerces_in_place_witness :
    (validate_csv_data ⟨[("date".data, [Cell.str "2024-01-02 03:00".data]),
        ("kwh".data, [Cell.str "2".data])]⟩).table
      = ((⟨[("date".data, [Cell.str "2024-01-02 03:00".data]),
          ("kwh".data, [Cell.str "2".data])]⟩ : Table).setCol
            (resolvedCols (⟨[("date".data, [Cell.str "2024-01-02 03:00".data]),
              ("kwh".data, [Cell.str "2".data])]⟩ : Table).colNames).1
            [Cell.dt ⟨2024, 1, 2, 3, 0⟩]).setCol
          (resolvedCols (⟨[("date".data, [Cell.str "2024-01-02 03:00".data]),
            ("kwh".data, [Cell.str "2".data])]⟩ : Table).colNames).2
          [Cell.num 2] ∧
    (validate_csv_data ⟨[("date".data, [Cell.str "2024-01-02 03:00".data]),
        ("kwh".data, [Cell.str "2".data])]⟩).datetime_col
      = some (resolvedCols (⟨[("date".data, [Cell.str "2024-01-02 03:00".data]),
          ("kwh".data, [Cell.str "2".data])]⟩ : Table).colNames).1 ∧
    (validate_csv_data ⟨[("date".data, [Cell.str "2024-01-02 03:00".data]),
        ("kwh".data, [Cell.str "2".data])]⟩).usage_col
      = some (resolvedCols (⟨[("date".data, [Cell.str "2024-01-02 03:00".data]),
          ("kwh".data, [Cell.str "2".data])]⟩ : Table).colNames).2 :=
  validator_coerces_in_place _ [Cell.dt ⟨2024, 1, 2, 3, 0⟩] [Cell.num 2]
    (by decide) (by decide) (by decide) (by decide)

/-! ### Claim C6 -/

/-- C6: validation errors accumulate.  When the timestamp column fails to
parse, the table is left unchanged by that step and the usage column is
still checked, so the error list is the timestamp error followed by
exactly the usage errors computed on the original usage column; and on a
concrete table all of `UnparsableTimestamp`, `NonNumericUsage` and
`NegativeUsage` are reported together. -/
theorem validation_errors_accumulate :
    (∀ df : Table, df.isEmptyTable = false → ¬ df.colNames.length < 2 →
      coerceDatetimeCol (df.getCol (resolvedCols df.colNames).1) = none →
      (validate_csv_data df).errors
        = VErr.unparsableTimestamp (resolvedCols df.colNames).1
            :: usageErrorsOf (df.getCol (resolvedCols df.colNames).2)
                (resolvedCols df.colNames).2) ∧
    (validate_csv_data ⟨[("time".data, [Cell.str "garbage".data, Cell.str "junk".data]),
        ("kwh".data, [Cell.nan, Cell.num (-1)])]⟩).errors
      = [VErr.unparsableTimestamp "time".data, VErr.nonNumericUsage "kwh".data,
         VErr.negativeUsage "kwh".data] := by
  refine ⟨fun df h1 h2 hfail => ?_, by decide⟩
  simp [validate_csv_data, h1, h2, hfail]

/-- C6 witness: the universal part applied at the concrete table whose
timestamp column is garbage and whose usage column holds a missing value
and a negative value. -/
theorem validation_errors_accumulate_witness :
    (validate_csv_data ⟨[("time".data, [Cell.str "garbage".data, Cell.str "junk".data]),
        ("kwh".data, [Cell.nan, Cell.num (-1)])]⟩).errors
      = VErr.unparsableTimestamp
          (resolvedCols (⟨[("time".data, [Cell.str "garbage".data, Cell.str "junk".data]),
            ("kwh".data, [Cell.nan, Cell.num (-1)])]⟩ : Table).colNames).1
          :: usageErrorsOf
            ((⟨[("time".data, [Cell.str "garbage".data, Cell.str "junk".data]),
              ("kwh".data, [Cell.nan, Cell.num (-1)])]⟩ : Table).getCol
              (resolvedCols (⟨[("time".data, [Cell.str "garbage".data, Cell.str "junk".data]),
                ("kwh".data, [Cell.nan, Cell.num (-1)])]⟩ : Table).colNames).2)
            (resolvedCols (⟨[("time".data, [Cell.str "garbage".data, Cell.str "junk".data]),
              ("kwh".data, [Cell.nan, Cell.num (-1)])]⟩ : Table).colNames).2 :=
  validation_errors_accumulate.1 _ (by decide) (by decide) (by decide)

/-! ### Claim C7 -/

/-- The identification fold, from an arbitrary accumulator: the datetime
slot ends as the last name containing a datetime substring, and the usage
slot as the last name containing a usage substring *and no datetime
substring* (the `elif`), each falling back to the accumulator. -/
theorem identifyCols_foldl (names : List ColName)
    (acc : Option ColName × Option ColName) :
    names.foldl
      (fun acc col =>
        if matchesAny col datetimeTerms then (some col, acc.2)
        else if matchesAny col usageTerms then (acc.1, some col)
        else acc) acc
      = ((findLastMatch (fun c => matchesAny c datetimeTerms) names).or acc.1,
         (findLastMatch
            (fun c => matchesAny c usageTerms && !matchesAny c datetimeTerms)
            names).or acc.2) := by
  induction names generalizing acc with
  | nil => simp [findLastMatch]
  | cons x xs ih =>
    simp only [List.foldl, findLastMatch]
    rw [ih]
    by_cases hd : matchesAny x datetimeTerms <;>
      by_cases hu : matchesAny x usageTerms <;>
        simp [hd, hu, Option.or_assoc]

/-- C7 counterexample: the two role matches are not independent.  With
columns `["power_time", "b"]` the name `power_time` contains both a
timestamp substring (`time`) and a usage substring (`power`), but the
`elif` prevents it from ever being considered for the usage role, so the
code falls back to the second column — while the independent-scan reading
of the claim would select `power_time` for both roles. -/
theorem column_roles_not_independent :
    resolvedCols ["power_time".data, "b".data]
      ≠ resolvedColsIndependent ["power_time".data, "b".data] := by decide

/-- C7 (amended): the validator scans column names case-insensitively for
the timestamp substrings and — only for names with no timestamp-substring
match (`elif`) — the usage substrings, the last match winning; it
defaults to the first column for the timestamp role and the second for
the usage role; and one column can still be selected for both roles via
the positional defaults (e.g. columns `["power", "b"]`). -/
theorem column_identification_elif_last_match (names : List ColName)
    (h : 2 ≤ names.length) :
    (resolvedCols names).1
      = (findLastMatch (fun c => matchesAny c datetimeTerms) names).getD
          (names.headD []) ∧
    (resolvedCols names).2
      = (findLastMatch
            (fun c => matchesAny c usageTerms && !matchesAny c datetimeTerms)
            names).getD (names.getD 1 []) ∧
    resolvedCols ["power".data, "b".data] = ("power".data, "power".data) := by
  have hlen : names.length > 1 := h
  refine ⟨?_, ?_, by decide⟩ <;>
    simp [resolvedCols, identifyCols, identifyCols_foldl, hlen]

/-- C7 witness: the amended characterization applied at the columns
`["power_time", "b"]`. -/
theorem column_identification_elif_last_match_witness :
    (resolvedCols ["power_time".data, "b".data]).1
      = (findLastMatch (fun c => matchesAny c datetimeTerms)
          ["power_time".data, "b".data]).getD
          (["power_time".data, "b".data].headD []) ∧
    (resolvedCols ["power_time".data, "b".data]).2
      = (findLastMatch
            (fun c => matchesAny c usageTerms && !matchesAny c datetimeTerms)
            ["power_time".data, "b".data]).getD
          (["power_time".data, "b".data].getD 1 []) ∧
    resolvedCols ["power".data, "b".data] = ("power".data, "power".data) :=
  column_identification_elif_last_match ["power_time".data, "b".data] (by decide)

/-! ### Claim C8 -/

/-- C8: the time-of-day conversion of the adapter uses only the hour
components of the two `"HH:MM"` strings: with both fields present the
hour list is `[start_hour..end_hour]` when `start_hour ≤ end_hour` and
wraps past midnight otherwise; `"22:00"`/`"02:00"` gives
`[22,23,0,1,2]`; the minutes are ignored; and absent time fields give the
empty list (no hour restriction). -/
theorem adapter_time_window_hours :
    (∀ (st et : List Char) (sh eh : Int),
      time_to_hour st = some sh → time_to_hour et = some eh →
      tariffHoursOfTimes (some st) (some et)
        = .ok (if sh ≤ eh then intRange sh (eh + 1)
               else intRange sh 24 ++ intRange 0 (eh + 1))) ∧
    tariffHoursOfTimes (some "22:00".data) (some "02:00".data)
      = .ok [22, 23, 0, 1, 2] ∧
    (time_to_hour "22:00".data = some 22 ∧ time_to_hour "22:59".data = some 22) ∧
    tariffHoursOfTimes none none = .ok [] := by
  refine ⟨fun st et sh eh hs he => ?_, by decide, ⟨by decide, by decide⟩, by decide⟩
  simp only [tariffHoursOfTimes, hs, he]
  split <;> rfl

/-- C8 witness: the general rule applied to the times `"10:30"` and
`"12:45"` (minutes present and ignored). -/
theorem adapter_time_window_hours_witness :
    tariffHoursOfTimes (some "10:30".data) (some "12:45".data)
      = .ok (if (10 : Int) ≤ 12 then intRange 10 (12 + 1)
             else intRange 10 24 ++ intRange 0 (12 + 1)) :=
  adapter_time_window_hours.1 "10:30".data "12:45".data 10 12 (by decide) (by decide)

/-! ### Claim C9 -/

/-- C9: a malformed price-model document yields a conversion error that
names the offending field, and the broken model is not applied even in
part: the caller replaces the configuration only on a successful
conversion, so the previously loaded configuration is unaffected. -/
theorem conversion_error_leaves_config (state : Config) (m : ModelData)
    (e : ConvErr) (h : convert_price_model_to_config m = .error e) :
    applyPriceModel state m = state ∧ ∃ f, e = ConvErr.badField f := by
  constructor
  · simp [applyPriceModel, h]
  · cases e with
    | badField f => exact ⟨f, rfl⟩

/-- C9 witness: a document whose `tax_rate` does not convert to a float
leaves a concrete previously loaded configuration untouched. -/
theorem conversion_error_leaves_config_witness :
    applyPriceModel ⟨100, 1, 25, false, "SEK".data, []⟩
        ⟨some (.jnum 100), some (.jnum 1), some (.jstr "abc".data),
         some false, some "SEK".data, some []⟩
      = ⟨100, 1, 25, false, "SEK".data, []⟩ ∧
    ∃ f, ConvErr.badField "tax_rate".data = ConvErr.badField f :=
  conversion_error_leaves_config _ _ _ (by decide)

end PowerBill
